import Mathlib

/-!
# react-lifecycle-example: `src/ui/TodoApp.js`

A shallow embedding of the to-do list components and the proofs of the
properties stated about them.

* JavaScript arrays are `List`s, objects with a fixed shape are structures.
* An item id is a JSON number or a JSON string; `===` on two ids is decidable
  equality on `Ident` (a number never equals a string).
* `Math.random()` is a rational draw `r`. The product `Math.random() * length`
  is the multiplication of the platform, a parameter `mul` of the hooks of
  `TodoList`: `doubleMul` is the multiplication of IEEE 754 doubles, `exactMul`
  the one of exact arithmetic. `Math.floor` is the integer floor.
* A promise is described by the library that built the object (which decides
  whether it has a `cancel` method) and by its settlement state.
-/

/-- An item id as it comes out of `todos.json`: a number or a string. -/
inductive Ident where
  | num (n : Int)
  | str (s : String)
  deriving DecidableEq, Repr

/-- A to-do item `{ id, value, checked }`. -/
structure TodoItem where
  id : Ident
  value : String
  checked : Bool
  deriving DecidableEq, Repr

/-! ## The fetcher and the promises it returns -/

/-- The response that the network hands to the callback of `fetch(url).then`:
its HTTP status and what `res.json()` makes of the body (`none` when the body
is not a JSON document). -/
structure Response where
  status : Nat
  body : Option (List TodoItem)
  deriving DecidableEq, Repr

/-- The getter `res.ok` of the Fetch standard: the status is in 200..299. -/
def Response.ok (res : Response) : Bool :=
  decide (200 ≤ res.status) && decide (res.status ≤ 299)

/-- A JavaScript error value. `fetchError res` is the `new Error()` built on
lines 17-18 with `error.response = res`. -/
inductive JsError where
  | fetchError (response : Response)
  | syntaxError
  | typeError (message : String)
  | networkError
  deriving DecidableEq, Repr

/-- How a promise settles. -/
inductive Outcome (α : Type) where
  | fulfilled (value : α)
  | rejected (reason : JsError)
  deriving DecidableEq, Repr

/-- The promise returned by `res.json()`. -/
def Response.json (res : Response) : Outcome (List TodoItem) :=
  match res.body with
  | some parsed => .fulfilled parsed
  | none => .rejected .syntaxError

/-- What the callback of `fetchJSON` does with a response: how the promise
returned by `fetchJSON` settles, and whether `res.json()` was called. -/
structure FetchJSONResult where
  outcome : Outcome (List TodoItem)
  jsonCalled : Bool
  deriving DecidableEq, Repr

/-- The callback of `fetchJSON` (lines 15-23), run on the response `res` that
`fetch(url)` resolved with. -/
def fetchJSON (res : Response) : FetchJSONResult :=
  if !res.ok then
    { outcome := .rejected (.fetchError res), jsonCalled := false }
  else
    { outcome := res.json, jsonCalled := true }

/-- The library whose constructor built a promise object. Bluebird promises
have a `cancel` method, the promises of the platform have none. -/
inductive PromiseImpl where
  | bluebird
  | native
  deriving DecidableEq, Repr

/-- The settlement state of a promise. -/
inductive PromiseState where
  | pending
  | fulfilled
  | rejected (reason : JsError)
  | cancelled
  deriving DecidableEq, Repr

/-- A promise object as far as the container looks at it. -/
structure PromiseObj where
  impl : PromiseImpl
  state : PromiseState
  deriving DecidableEq, Repr

/-- The call `p.cancel()`. On a promise without that method the call raises a
`TypeError`; on a bluebird promise it cancels a pending promise and does
nothing to a settled one. -/
def PromiseObj.cancel (p : PromiseObj) : Except JsError PromiseObj :=
  match p.impl with
  | .native => .error (.typeError "this.fetchPromise.cancel is not a function")
  | .bluebird =>
    match p.state with
    | .pending => .ok { p with state := .cancelled }
    | _ => .ok p

/-! ## TodoApp -/

namespace TodoApp

/-- `this.state` of `TodoApp`: `{ todos }`. -/
structure State where
  todos : List TodoItem
  deriving DecidableEq, Repr

/-- Where React is in the life of the component instance. -/
inductive Phase where
  | constructed
  | mounted
  | unmounted
  deriving DecidableEq, Repr

/-- A `TodoApp` instance: `this.state`, `this.fetchPromise`, the phase React
has it in, and the arguments of the `setState({ todos })` calls that the
continuation of line 48-50 has made so far (oldest first). -/
structure Instance where
  state : State
  fetchPromise : PromiseObj
  phase : Phase
  continuationCalls : List (List TodoItem)
  deriving DecidableEq, Repr

/-- The constructor (lines 27-38): `todos: []` and the dummy
`Promise.resolve()` of bluebird. -/
def constructor : Instance :=
  { state := { todos := [] }
    fetchPromise := { impl := .bluebird, state := .fulfilled }
    phase := .constructed
    continuationCalls := [] }

/-- React's `setState(updater)`: the updater is applied to the state of a
mounted instance; on an instance that is not mounted the call changes
nothing. -/
def setState (inst : Instance) (updater : State → State) : Instance :=
  if inst.phase = .mounted then { inst with state := updater inst.state } else inst

/-- The hook `componentDidMount` (lines 40-51): `this.fetchPromise` becomes the
pending promise `fetchJSON("todos.json").then(...)`. That promise is built by
`then` of the promise that the global `fetch` returned, so it is of the
implementation `fetchImpl` of that one. -/
def componentDidMount (fetchImpl : PromiseImpl) (inst : Instance) : Instance :=
  { inst with fetchPromise := { impl := fetchImpl, state := .pending } }

/-- The hook `componentWillUnmount` (lines 53-61): `this.fetchPromise.cancel()`. -/
def componentWillUnmount (inst : Instance) : Except JsError Instance :=
  match inst.fetchPromise.cancel with
  | .ok p => .ok { inst with fetchPromise := p }
  | .error e => .error e

/-- The updater that `handleClick(id)` passes to `setState` (lines 63-72):
`prevState => ({ todos: prevState.todos.map(todo => ({ ...todo,
checked: id === todo.id ? !todo.checked : todo.checked })) })`. -/
def handleClick (id : Ident) (prevState : State) : State :=
  { todos := prevState.todos.map fun todo =>
      { todo with checked := if id = todo.id then !todo.checked else todo.checked } }

/-- The continuation `todos => { this.setState({ todos }) }` of line 48-50. -/
def fetchContinuation (inst : Instance) (todos : List TodoItem) : Instance :=
  { setState inst (fun _ => { todos := todos }) with
    continuationCalls := inst.continuationCalls ++ [todos] }

/-- The settlement of the pending `this.fetchPromise` once the promise of
`fetch` has settled with `res`: the callback of `fetchJSON` runs, and the
continuation runs when that one fulfils. -/
def settle (inst : Instance) (res : Response) : Instance :=
  match (fetchJSON res).outcome with
  | .fulfilled todos =>
    { fetchContinuation inst todos with
      fetchPromise := { inst.fetchPromise with state := .fulfilled } }
  | .rejected reason =>
    { inst with fetchPromise := { inst.fetchPromise with state := .rejected reason } }

/-- What happens to a `TodoApp` instance. -/
inductive Event where
  | mount
  | unmount
  | response (res : Response)
  | networkFailure
  | click (id : Ident)
  deriving DecidableEq, Repr

/-- One event: the instance after it, and the error the hook raised, if any.
React mounts an instance once and unmounts it once; an error raised by
`componentWillUnmount` does not keep React from unmounting. The network answers
a fetch that was started; a cancelled promise runs no callback. -/
def step (fetchImpl : PromiseImpl) (inst : Instance) : Event → Instance × Option JsError
  | .mount =>
    if inst.phase = .constructed then
      (componentDidMount fetchImpl { inst with phase := .mounted }, none)
    else (inst, none)
  | .unmount =>
    if inst.phase = .unmounted then (inst, none)
    else
      match componentWillUnmount inst with
      | .ok inst' => ({ inst' with phase := .unmounted }, none)
      | .error e => ({ inst with phase := .unmounted }, some e)
  | .response res =>
    if inst.fetchPromise.state = .pending then (settle inst res, none) else (inst, none)
  | .networkFailure =>
    if inst.fetchPromise.state = .pending then
      ({ inst with fetchPromise := { inst.fetchPromise with state := .rejected .networkError } },
        none)
    else (inst, none)
  | .click id => (setState inst (handleClick id), none)

/-- A history of events: the final instance and the errors raised on the way
(oldest first). -/
def run (fetchImpl : PromiseImpl) (inst : Instance) : List Event → Instance × List JsError
  | [] => (inst, [])
  | e :: es =>
    let r := step fetchImpl inst e
    let rest := run fetchImpl r.1 es
    (rest.1, r.2.toList ++ rest.2)

end TodoApp

/-! ## Numbers -/

/-- The product of exact arithmetic. -/
def exactMul (r : ℚ) (n : Nat) : ℚ := r * (n : ℚ)

/-- The integer nearest to `q`, the even one of the two when `q` lies half way
between two integers. -/
def roundHalfEven (q : ℚ) : Int :=
  if q - (⌊q⌋ : ℚ) < 1 / 2 then ⌊q⌋
  else if 1 / 2 < q - (⌊q⌋ : ℚ) then ⌊q⌋ + 1
  else if ⌊q⌋ % 2 = 0 then ⌊q⌋
  else ⌊q⌋ + 1

/-- The IEEE 754 double nearest to a positive `x`, ties to even: doubles with
the binary exponent `e` of `x` are the multiples of `2 ^ (e - 52)`, and below
`2 ^ (-1022)` the multiples of `2 ^ (-1074)`. Overflow to infinity is left out:
the products taken here are below `2 ^ 32`. -/
def roundDoublePos (x : ℚ) : ℚ :=
  (roundHalfEven (x / (2 : ℚ) ^ (max (Int.log 2 x) (-1022) - 52)) : ℚ) *
    (2 : ℚ) ^ (max (Int.log 2 x) (-1022) - 52)

/-- The IEEE 754 double nearest to `x`, ties to even. -/
def roundDouble (x : ℚ) : ℚ :=
  if x = 0 then 0
  else if x < 0 then -roundDoublePos (-x)
  else roundDoublePos x

/-- The product `r * n` of a double `r` and an array length `n` as JavaScript
computes it: the exact product rounded to the nearest double. -/
def doubleMul (r : ℚ) (n : Nat) : ℚ := roundDouble (r * (n : ℚ))

/-! ## TodoList and Todo -/

/-- What the function component `Todo` (lines 144-151) renders: the label, the
state of the checkbox, and the id that a change of the checkbox passes to
`onChange`. -/
structure TodoElement where
  label : String
  checked : Bool
  changeArg : Ident
  deriving DecidableEq, Repr

/-- The function component `Todo`. -/
def Todo (todo : TodoItem) : TodoElement :=
  { label := todo.value, checked := todo.checked, changeArg := todo.id }

namespace TodoList

/-- `this.props` of `TodoList`, as far as the hooks read it. -/
structure Props where
  todos : List TodoItem
  deriving DecidableEq, Repr

/-- `this.state` of `TodoList`: `{ featured }`. -/
structure State where
  featured : Int
  deriving DecidableEq, Repr

/-- The class field `state = { featured: 0 }` (lines 84-86). -/
def initialState : State := { featured := 0 }

/-- `Math.floor(Math.random() * this.props.todos.length)` for the draw `r`,
with `mul` the multiplication of the platform. -/
def randomIndex (mul : ℚ → Nat → ℚ) (r : ℚ) (props : Props) : Int :=
  ⌊mul r props.todos.length⌋

/-- The hook `componentDidMount` (lines 88-95): the argument of its `setState`
call. -/
def componentDidMount (mul : ℚ → Nat → ℚ) (props : Props) (r : ℚ) : State :=
  { featured := randomIndex mul r props }

/-- The hook `componentDidUpdate` (lines 97-116): the argument of its
`setState` call, `none` when it makes no call. `isEqual` on two arrays of ids
is equality of the two sequences. -/
def componentDidUpdate (mul : ℚ → Nat → ℚ) (prevProps props : Props) (r : ℚ) :
    Option State :=
  let prevTodosIds : List Ident := prevProps.todos.map fun todo => todo.id
  let currentTodosId : List Ident := props.todos.map fun todo => todo.id
  if ¬ (prevTodosIds = currentTodosId) then
    some { featured := randomIndex mul r props }
  else none

/-- The state after a hook: the patch of its `setState` call merged in. -/
def setState (state : State) (patch : Option State) : State :=
  match patch with
  | some s => s
  | none => state

/-- The array read `todos[featured]`: `undefined` (here `none`) unless
`featured` is an index of the array. -/
def lookup (todos : List TodoItem) (featured : Int) : Option TodoItem :=
  if 0 ≤ featured then todos[featured.toNat]? else none

/-- What `render` returns: the element under "Featured Todo", if any, and the
rows under "All Todos" with their keys. -/
structure Element where
  featured : Option TodoElement
  rows : List (Ident × TodoElement)
  deriving DecidableEq, Repr

/-- The method `render` (lines 118-138). -/
def render (props : Props) (state : State) : Element :=
  let featuredTodo := lookup props.todos state.featured
  { featured := featuredTodo.map Todo
    rows := props.todos.map fun todo => (todo.id, Todo todo) }

/-- A mounted `TodoList`: its props, its state, and how many times it has
called `Math.random()`. -/
structure Instance where
  props : Props
  state : State
  draws : Nat

/-- Mounting with the first props: the initial state, then
`componentDidMount` with the first draw of `rng`. -/
def mount (mul : ℚ → Nat → ℚ) (rng : Nat → ℚ) (props : Props) : Instance :=
  { props := props
    state := setState initialState (some (componentDidMount mul props (rng 0)))
    draws := 1 }

/-- An update: React has rendered with `props` and calls `componentDidUpdate`
with the props of the render before. The draw is used up only when the hook
calls `Math.random()`. An update that the component's own `setState` causes
is an update with the props it already has. -/
def update (mul : ℚ → Nat → ℚ) (rng : Nat → ℚ) (inst : Instance) (props : Props) :
    Instance :=
  match componentDidUpdate mul inst.props props (rng inst.draws) with
  | some s => { props := props, state := setState inst.state (some s), draws := inst.draws + 1 }
  | none => { props := props, state := setState inst.state none, draws := inst.draws }

/-- The life of a `TodoList`: mounted with `first`, then updated with each of
`later` in turn. -/
def run (mul : ℚ → Nat → ℚ) (rng : Nat → ℚ) (first : Props) (later : List Props) :
    Instance :=
  later.foldl (update mul rng) (mount mul rng first)

/-- The featured index is an index of the items, or the items are empty. -/
def InRange (inst : Instance) : Prop :=
  inst.props.todos ≠ [] →
    0 ≤ inst.state.featured ∧ inst.state.featured < (inst.props.todos.length : Int)

end TodoList

/-! ## Sample data -/

/-- The two items of scenario A. -/
def sampleTodos : List TodoItem :=
  [{ id := .num 1, value := "a", checked := false },
   { id := .num 2, value := "b", checked := false }]

/-- A draw source that always yields one half. -/
def halfDraws : Nat → ℚ := fun _ => 1 / 2

/-- A 404 response; its body is not JSON. -/
def notFound : Response := { status := 404, body := none }

/-- A 200 response with the items of scenario A. -/
def okResponse : Response := { status := 200, body := some sampleTodos }

/-- A 200 response whose body is not JSON. -/
def okNotJson : Response := { status := 200, body := none }

/-- Ten items with the ids 0 to 9. -/
def tenTodos : List TodoItem :=
  (List.range 10).map fun i => { id := .num i, value := "t", checked := false }

/-- A double in `[0, 1)` whose product with ten lies half way between two
doubles, the upper one being nine. -/
def tieDraw : ℚ := 4053239664633446 / 2 ^ 52

/-- The double nearest to one third, written `0.3333333333333333`. -/
def thirdDraw : ℚ := 6004799503160661 / 2 ^ 54

/-! ## Toggle -/

theorem TodoApp.handleClick_length (id : Ident) (s : TodoApp.State) :
    (TodoApp.handleClick id s).todos.length = s.todos.length := by
  simp [TodoApp.handleClick]

theorem TodoApp.handleClick_getElem (id : Ident) (s : TodoApp.State) (i : Nat)
    (h : i < s.todos.length) :
    (TodoApp.handleClick id s).todos[i]? =
      some { s.todos[i] with
        checked := if id = s.todos[i].id then !s.todos[i].checked else s.todos[i].checked } := by
  simp [TodoApp.handleClick, List.getElem?_map, List.getElem?_eq_getElem h]

theorem TodoApp.handleClick_ids (id : Ident) (s : TodoApp.State) :
    (TodoApp.handleClick id s).todos.map (fun todo => todo.id) =
      s.todos.map (fun todo => todo.id) := by
  simp [TodoApp.handleClick, List.map_map, Function.comp_def]

/-- C1: the collection installed by `handleClick(id)` has the length of the
previous one; at every position the item keeps its id and value, and its
`checked` is negated exactly when its id is `id`; when no item has that id the
collection is unchanged. -/
theorem C1_handleClick_pointwise (todos : List TodoItem) (id : Ident) :
    (TodoApp.handleClick id ⟨todos⟩).todos.length = todos.length ∧
    (∀ (i : Nat) (h : i < todos.length),
      ∃ t, (TodoApp.handleClick id ⟨todos⟩).todos[i]? = some t ∧
        t.id = todos[i].id ∧ t.value = todos[i].value ∧
        (todos[i].id = id → t.checked = !todos[i].checked) ∧
        (todos[i].id ≠ id → t.checked = todos[i].checked)) ∧
    ((∀ t ∈ todos, t.id ≠ id) → (TodoApp.handleClick id ⟨todos⟩).todos = todos) := by
  refine ⟨TodoApp.handleClick_length id ⟨todos⟩, ?_, ?_⟩
  · intro i h
    refine ⟨_, TodoApp.handleClick_getElem id ⟨todos⟩ i h, rfl, rfl, ?_, ?_⟩
    · intro e
      simp [e]
    · intro e
      have : ¬ id = todos[i].id := fun h' => e h'.symm
      simp [this]
  · intro hno
    simp only [TodoApp.handleClick]
    conv_rhs => rw [← List.map_id todos]
    apply List.map_congr_left
    intro t ht
    have : ¬ id = t.id := fun h' => hno t ht h'.symm
    simp [this]

/-- C7: applying the `handleClick(id)` update twice gives back the collection. -/
theorem C7_handleClick_twice (todos : List TodoItem) (id : Ident) :
    (TodoApp.handleClick id (TodoApp.handleClick id ⟨todos⟩)).todos = todos := by
  simp only [TodoApp.handleClick, List.map_map]
  conv_rhs => rw [← List.map_id todos]
  apply List.map_congr_left
  intro t _
  by_cases h : id = t.id <;> simp [h]

/-! ## The featured index -/

theorem TodoList.componentDidUpdate_eq_none (mul : ℚ → Nat → ℚ)
    (prevProps props : TodoList.Props) (r : ℚ)
    (h : prevProps.todos.map (fun todo => todo.id) = props.todos.map (fun todo => todo.id)) :
    TodoList.componentDidUpdate mul prevProps props r = none := by
  simp [TodoList.componentDidUpdate, h]

theorem TodoList.componentDidUpdate_eq_some (mul : ℚ → Nat → ℚ)
    (prevProps props : TodoList.Props) (r : ℚ)
    (h : prevProps.todos.map (fun todo => todo.id) ≠ props.todos.map (fun todo => todo.id)) :
    TodoList.componentDidUpdate mul prevProps props r =
      some { featured := TodoList.randomIndex mul r props } := by
  simp [TodoList.componentDidUpdate, h]

/-- C2: whatever the multiplication `mul` of the platform, `componentDidUpdate`
calls `setState` exactly when the id sequence of the previous items differs
from the id sequence of the current items, and then with the floor of the
product `mul r length` that the code computes from the draw `r`; when the two
sequences are equal the featured index stays. -/
theorem C2_componentDidUpdate_recompute_law (mul : ℚ → Nat → ℚ) (prev cur : List TodoItem)
    (r : ℚ) (f : Int) :
    ((TodoList.componentDidUpdate mul ⟨prev⟩ ⟨cur⟩ r).isSome = true ↔
      prev.map (fun todo => todo.id) ≠ cur.map (fun todo => todo.id)) ∧
    (prev.map (fun todo => todo.id) ≠ cur.map (fun todo => todo.id) →
      TodoList.componentDidUpdate mul ⟨prev⟩ ⟨cur⟩ r = some ⟨⌊mul r cur.length⌋⟩ ∧
      TodoList.setState ⟨f⟩ (TodoList.componentDidUpdate mul ⟨prev⟩ ⟨cur⟩ r) =
        ⟨⌊mul r cur.length⌋⟩) ∧
    (prev.map (fun todo => todo.id) = cur.map (fun todo => todo.id) →
      TodoList.componentDidUpdate mul ⟨prev⟩ ⟨cur⟩ r = none ∧
      TodoList.setState ⟨f⟩ (TodoList.componentDidUpdate mul ⟨prev⟩ ⟨cur⟩ r) = ⟨f⟩) := by
  refine ⟨?_, ?_, ?_⟩
  · by_cases h : prev.map (fun todo => todo.id) = cur.map (fun todo => todo.id)
    · simp [TodoList.componentDidUpdate, h]
    · simp [TodoList.componentDidUpdate, h]
  · intro h
    rw [TodoList.componentDidUpdate_eq_some mul ⟨prev⟩ ⟨cur⟩ r h]
    exact ⟨rfl, rfl⟩
  · intro h
    rw [TodoList.componentDidUpdate_eq_none mul ⟨prev⟩ ⟨cur⟩ r h]
    exact ⟨rfl, rfl⟩

/-- C3: the collection that `handleClick(id)` installs has the id sequence of
the previous one, so `componentDidUpdate` run with the previous and the toggled
items makes no `setState` call and the featured index stays `f`, whatever the
multiplication of the platform. -/
theorem C3_toggle_keeps_featured (mul : ℚ → Nat → ℚ) (todos : List TodoItem) (id : Ident)
    (f : Int) (r : ℚ) :
    (TodoApp.handleClick id ⟨todos⟩).todos.map (fun todo => todo.id) =
      todos.map (fun todo => todo.id) ∧
    TodoList.componentDidUpdate mul ⟨todos⟩ ⟨(TodoApp.handleClick id ⟨todos⟩).todos⟩ r = none ∧
    TodoList.setState ⟨f⟩
      (TodoList.componentDidUpdate mul ⟨todos⟩ ⟨(TodoApp.handleClick id ⟨todos⟩).todos⟩ r) =
        ⟨f⟩ := by
  have hids := TodoApp.handleClick_ids id ⟨todos⟩
  have hnone := TodoList.componentDidUpdate_eq_none mul ⟨todos⟩
    ⟨(TodoApp.handleClick id ⟨todos⟩).todos⟩ r hids.symm
  refine ⟨hids, hnone, ?_⟩
  rw [hnone]
  rfl

theorem TodoList.randomIndex_inRange (r : ℚ) (h0 : 0 ≤ r) (h1 : r < 1) (props : TodoList.Props)
    (hne : props.todos ≠ []) :
    0 ≤ TodoList.randomIndex exactMul r props ∧
      TodoList.randomIndex exactMul r props < (props.todos.length : Int) := by
  have hpos : (0 : ℚ) < (props.todos.length : ℚ) := by
    have : 0 < props.todos.length := List.length_pos.mpr hne
    exact_mod_cast this
  constructor
  · exact Int.floor_nonneg.mpr (mul_nonneg h0 hpos.le)
  · rw [TodoList.randomIndex, Int.floor_lt, exactMul]
    have : r * (props.todos.length : ℚ) < 1 * (props.todos.length : ℚ) :=
      mul_lt_mul_of_pos_right h1 hpos
    simpa using this

theorem TodoList.mount_inRange (rng : Nat → ℚ) (hr : ∀ n, 0 ≤ rng n ∧ rng n < 1)
    (props : TodoList.Props) : TodoList.InRange (TodoList.mount exactMul rng props) := by
  intro hne
  exact TodoList.randomIndex_inRange (rng 0) (hr 0).1 (hr 0).2 props hne

theorem TodoList.update_inRange (rng : Nat → ℚ) (hr : ∀ n, 0 ≤ rng n ∧ rng n < 1)
    (inst : TodoList.Instance) (props : TodoList.Props) (hinv : TodoList.InRange inst) :
    TodoList.InRange (TodoList.update exactMul rng inst props) := by
  by_cases h : inst.props.todos.map (fun todo => todo.id) = props.todos.map (fun todo => todo.id)
  · have hlen : inst.props.todos.length = props.todos.length := by
      simpa using congrArg List.length h
    intro hne
    simp only [TodoList.update, TodoList.componentDidUpdate_eq_none _ _ _ _ h,
      TodoList.setState] at hne ⊢
    have hne' : inst.props.todos ≠ [] := by
      intro h0
      apply hne
      apply List.eq_nil_of_length_eq_zero
      rw [← hlen, h0]
      rfl
    have := hinv hne'
    rw [← hlen]
    exact this
  · intro hne
    simp only [TodoList.update, TodoList.componentDidUpdate_eq_some _ _ _ _ h,
      TodoList.setState] at hne ⊢
    exact TodoList.randomIndex_inRange _ (hr _).1 (hr _).2 props hne

theorem TodoList.update_props (mul : ℚ → Nat → ℚ) (rng : Nat → ℚ) (inst : TodoList.Instance)
    (props : TodoList.Props) : (TodoList.update mul rng inst props).props = props := by
  unfold TodoList.update
  split <;> rfl

theorem TodoList.run_inRange (rng : Nat → ℚ) (hr : ∀ n, 0 ≤ rng n ∧ rng n < 1)
    (first : TodoList.Props) (later : List TodoList.Props) :
    TodoList.InRange (TodoList.run exactMul rng first later) := by
  unfold TodoList.run
  induction later using List.reverseRecOn with
  | nil => exact TodoList.mount_inRange rng hr first
  | append_singleton l p ih =>
    rw [List.foldl_append]
    exact TodoList.update_inRange rng hr _ p ih

theorem TodoList.run_props (mul : ℚ → Nat → ℚ) (rng : Nat → ℚ) (first : TodoList.Props)
    (later : List TodoList.Props) :
    (TodoList.run mul rng first later).props =
      (first :: later).getLast (List.cons_ne_nil _ _) := by
  unfold TodoList.run
  induction later using List.reverseRecOn with
  | nil => rfl
  | append_singleton l p ih =>
    rw [List.foldl_append]
    simp [TodoList.update_props]

/-- C8: in exact arithmetic (`exactMul`), for every sequence of item lists
passed to `TodoList` and every sequence of draws in `[0, 1)`, after
`componentDidMount` and the `componentDidUpdate` of every update have run, the
instance holds the last items passed, and if these are not empty the featured
index is in `[0, length)`: it is `0` for one item and `0` or `1` for two
items. -/
theorem C8_featured_in_range (rng : Nat → ℚ) (hr : ∀ n, 0 ≤ rng n ∧ rng n < 1)
    (first : TodoList.Props) (later : List TodoList.Props) :
    (TodoList.run exactMul rng first later).props =
      (first :: later).getLast (List.cons_ne_nil _ _) ∧
    ((TodoList.run exactMul rng first later).props.todos ≠ [] →
      0 ≤ (TodoList.run exactMul rng first later).state.featured ∧
      (TodoList.run exactMul rng first later).state.featured <
        ((TodoList.run exactMul rng first later).props.todos.length : Int)) ∧
    ((TodoList.run exactMul rng first later).props.todos.length = 1 →
      (TodoList.run exactMul rng first later).state.featured = 0) ∧
    ((TodoList.run exactMul rng first later).props.todos.length = 2 →
      (TodoList.run exactMul rng first later).state.featured = 0 ∨
      (TodoList.run exactMul rng first later).state.featured = 1) := by
  have hinv := TodoList.run_inRange rng hr first later
  refine ⟨TodoList.run_props exactMul rng first later, hinv, ?_, ?_⟩
  · intro h1
    have hne : (TodoList.run exactMul rng first later).props.todos ≠ [] := by
      intro h0
      rw [h0] at h1
      simp at h1
    have := hinv hne
    rw [h1] at this
    omega
  · intro h2
    have hne : (TodoList.run exactMul rng first later).props.todos ≠ [] := by
      intro h0
      rw [h0] at h2
      simp at h2
    have := hinv hne
    rw [h2] at this
    omega

/-- C10: with no items, whatever the featured index, the read
`todos[featured]` yields nothing, `render` returns no featured element and no
rows. -/
theorem C10_render_empty (featured : Int) :
    TodoList.lookup [] featured = none ∧
    (TodoList.render ⟨[]⟩ ⟨featured⟩).featured = none ∧
    (TodoList.render ⟨[]⟩ ⟨featured⟩).rows = [] := by
  have h : TodoList.lookup [] featured = none := by
    unfold TodoList.lookup
    split <;> simp
  refine ⟨h, ?_, ?_⟩
  · simp [TodoList.render, h]
  · simp [TodoList.render]

/-! ## Toggle, exactly one element -/

theorem TodoApp.handleClick_getElem? (id : Ident) (s : TodoApp.State) (j : Nat) :
    (TodoApp.handleClick id s).todos[j]? =
      (s.todos[j]?).map fun todo =>
        { todo with checked := if id = todo.id then !todo.checked else todo.checked } := by
  simp [TodoApp.handleClick, List.getElem?_map]

theorem TodoItem.flip_ne (t : TodoItem) : ({ t with checked := !t.checked } : TodoItem) ≠ t := by
  intro h
  have := congrArg TodoItem.checked h
  cases hc : t.checked <;> simp [hc] at this

/-- C9: when the ids of the collection are pairwise distinct and `id` occurs
among them, the collection that `handleClick(id)` installs differs from the
previous one at exactly one position, the position of the item with that id,
and there the item is the previous one with `checked` negated. -/
theorem C9_toggle_flips_exactly_one (todos : List TodoItem) (id : Ident)
    (hnodup : (todos.map (fun todo => todo.id)).Nodup)
    (hmem : id ∈ todos.map (fun todo => todo.id)) :
    ∃ (i : Nat) (t : TodoItem), todos[i]? = some t ∧ t.id = id ∧
      (TodoApp.handleClick id ⟨todos⟩).todos[i]? = some { t with checked := !t.checked } ∧
      (∀ j, (TodoApp.handleClick id ⟨todos⟩).todos[j]? ≠ todos[j]? ↔ j = i) := by
  obtain ⟨t, ht, rfl⟩ := List.mem_map.mp hmem
  obtain ⟨i, hi, hti⟩ := List.getElem_of_mem ht
  have hsome : todos[i]? = some t := by rw [List.getElem?_eq_getElem hi, hti]
  refine ⟨i, t, hsome, rfl, ?_, ?_⟩
  · rw [TodoApp.handleClick_getElem?]
    simp [hsome]
  · intro j
    rw [TodoApp.handleClick_getElem?]
    constructor
    · intro hne
      by_contra hji
      apply hne
      by_cases hj : j < todos.length
      · have hids : ¬ t.id = todos[j].id := by
          intro heq
          apply hji
          have hj2 : j < (todos.map (fun todo => todo.id)).length := by simpa using hj
          have hi2 : i < (todos.map (fun todo => todo.id)).length := by simpa using hi
          have h1 : (todos.map (fun todo => todo.id))[j] =
              (todos.map (fun todo => todo.id))[i] := by
            simp [hti, heq]
          exact (List.Nodup.getElem_inj_iff hnodup).mp h1
        simp [List.getElem?_eq_getElem hj, hids]
      · simp [List.getElem?_eq_none (not_lt.mp hj)]
    · rintro rfl
      simp only [hsome, Option.map_some', if_true]
      intro h
      exact TodoItem.flip_ne t (Option.some.inj h)

/-! ## The fetch -/

theorem Response.json_ne_fetchError (res r : Response) :
    res.json ≠ .rejected (.fetchError r) := by
  unfold Response.json
  split <;> simp

theorem TodoApp.componentWillUnmount_frame (inst inst' : TodoApp.Instance)
    (h : TodoApp.componentWillUnmount inst = .ok inst') :
    inst'.state = inst.state ∧ inst'.continuationCalls = inst.continuationCalls := by
  unfold TodoApp.componentWillUnmount at h
  split at h
  · cases h
    exact ⟨rfl, rfl⟩
  · cases h

theorem TodoApp.componentWillUnmount_bluebird (inst : TodoApp.Instance)
    (h : inst.fetchPromise.impl = .bluebird) :
    ∃ inst', TodoApp.componentWillUnmount inst = .ok inst' := by
  unfold TodoApp.componentWillUnmount PromiseObj.cancel
  rw [h]
  cases inst.fetchPromise.state <;> exact ⟨_, rfl⟩

theorem TodoApp.step_keeps_empty (fetchImpl : PromiseImpl) (inst : TodoApp.Instance)
    (e : TodoApp.Event) (hres : ∀ r, e = .response r → r.ok = false)
    (h : inst.state.todos = [] ∧ inst.continuationCalls = []) :
    (TodoApp.step fetchImpl inst e).1.state.todos = [] ∧
      (TodoApp.step fetchImpl inst e).1.continuationCalls = [] := by
  cases e with
  | mount =>
    simp only [TodoApp.step]
    split
    · exact h
    · exact h
  | unmount =>
    simp only [TodoApp.step]
    split
    · exact h
    · cases hc : TodoApp.componentWillUnmount inst with
      | ok inst' =>
        have := TodoApp.componentWillUnmount_frame inst inst' hc
        simp only
        rw [this.1, this.2]
        exact h
      | error e => exact h
  | response r =>
    have hok := hres r rfl
    simp only [TodoApp.step]
    split
    · simp only [TodoApp.settle, fetchJSON, hok]
      exact h
    · exact h
  | networkFailure =>
    simp only [TodoApp.step]
    split
    · exact h
    · exact h
  | click id =>
    simp only [TodoApp.step, TodoApp.setState]
    split
    · simp [TodoApp.handleClick, h.1, h.2]
    · exact h

theorem TodoApp.run_keeps_empty (fetchImpl : PromiseImpl) (events : List TodoApp.Event)
    (inst : TodoApp.Instance) (hres : ∀ r, TodoApp.Event.response r ∈ events → r.ok = false)
    (h : inst.state.todos = [] ∧ inst.continuationCalls = []) :
    (TodoApp.run fetchImpl inst events).1.state.todos = [] ∧
      (TodoApp.run fetchImpl inst events).1.continuationCalls = [] := by
  induction events generalizing inst with
  | nil => exact h
  | cons e es ih =>
    simp only [TodoApp.run]
    apply ih
    · intro r hr
      exact hres r (List.mem_cons_of_mem _ hr)
    · apply TodoApp.step_keeps_empty fetchImpl inst e _ h
      intro r hr
      exact hres r (hr ▸ List.mem_cons_self _ _)

/-- C6 as amended: on a response that is not ok the callback of `fetchJSON`
rejects with the error that carries that response and does not call
`res.json()`; on an ok response it returns `res.json()`, which is the parsed
body when the body is JSON and the rejection of the parse otherwise; it fails
with an error carrying a response exactly on the responses that are not ok.
When the fetch started by `componentDidMount` gets a response that is not ok,
`fetchPromise` is rejected with that error, the continuation does not run and
`todos` stays `[]`; the same holds after every history whose responses are all
not ok. -/
theorem C6_fetchJSON_fails_iff_not_ok (fetchImpl : PromiseImpl) (res : Response)
    (events : List TodoApp.Event) :
    (res.ok = false →
      fetchJSON res = { outcome := .rejected (.fetchError res), jsonCalled := false }) ∧
    (res.ok = true → fetchJSON res = { outcome := res.json, jsonCalled := true }) ∧
    (res.ok = true → ∀ parsed, res.body = some parsed →
      (fetchJSON res).outcome = .fulfilled parsed) ∧
    (res.ok = true → res.body = none → (fetchJSON res).outcome = .rejected .syntaxError) ∧
    ((∃ r, (fetchJSON res).outcome = .rejected (.fetchError r)) ↔ res.ok = false) ∧
    (res.ok = false →
      (TodoApp.run fetchImpl TodoApp.constructor [.mount, .response res]).1.fetchPromise.state =
        .rejected (.fetchError res) ∧
      (TodoApp.run fetchImpl TodoApp.constructor [.mount, .response res]).1.continuationCalls
        = [] ∧
      (TodoApp.run fetchImpl TodoApp.constructor [.mount, .response res]).1.state.todos = []) ∧
    ((∀ r, TodoApp.Event.response r ∈ events → r.ok = false) →
      (TodoApp.run fetchImpl TodoApp.constructor events).1.continuationCalls = [] ∧
      (TodoApp.run fetchImpl TodoApp.constructor events).1.state.todos = []) := by
  refine ⟨?_, ?_, ?_, ?_, ?_, ?_, ?_⟩
  · intro h
    simp [fetchJSON, h]
  · intro h
    simp [fetchJSON, h]
  · intro h parsed hb
    simp [fetchJSON, h, Response.json, hb]
  · intro h hb
    simp [fetchJSON, h, Response.json, hb]
  · constructor
    · rintro ⟨r, hr⟩
      by_contra hok
      have hok' : res.ok = true := by simpa using hok
      simp only [fetchJSON, hok'] at hr
      exact Response.json_ne_fetchError res r hr
    · intro h
      exact ⟨res, by simp [fetchJSON, h]⟩
  · intro h
    simp [TodoApp.run, TodoApp.step, TodoApp.constructor, TodoApp.componentDidMount,
      TodoApp.settle, fetchJSON, h]
  · intro h
    have := TodoApp.run_keeps_empty fetchImpl events TodoApp.constructor h ⟨rfl, rfl⟩
    exact ⟨this.2, this.1⟩

theorem TodoApp.unmount_cancels_bluebird (res : Response) :
    (TodoApp.run .bluebird TodoApp.constructor [.mount, .unmount, .response res]).2 = [] ∧
    (TodoApp.run .bluebird TodoApp.constructor
      [.mount, .unmount, .response res]).1.continuationCalls = [] := by
  simp [TodoApp.run, TodoApp.step, TodoApp.constructor, TodoApp.componentDidMount,
    TodoApp.componentWillUnmount, PromiseObj.cancel]

/-- C4: with the `fetch` of the platform, whose promises have no `cancel`
method, `componentWillUnmount` run after `componentDidMount` raises a
`TypeError`, whether the fetch is still in flight or has completed, while on
the freshly constructed instance it completes. -/
theorem C4_componentWillUnmount_raises_after_mount :
    TodoApp.componentWillUnmount (TodoApp.componentDidMount .native TodoApp.constructor) =
      .error (.typeError "this.fetchPromise.cancel is not a function") ∧
    (TodoApp.run .native TodoApp.constructor [.mount, .unmount]).2 =
      [.typeError "this.fetchPromise.cancel is not a function"] ∧
    (TodoApp.run .native TodoApp.constructor [.mount, .response okResponse, .unmount]).2 =
      [.typeError "this.fetchPromise.cancel is not a function"] ∧
    TodoApp.componentWillUnmount TodoApp.constructor = .ok TodoApp.constructor := by
  refine ⟨rfl, rfl, rfl, rfl⟩

/-- C5: with the `fetch` of the platform, after `componentDidMount`, then
`componentWillUnmount`, then an ok response with the items of scenario A, the
continuation has run once on these items although the instance is unmounted. -/
theorem C5_continuation_runs_after_unmount :
    (TodoApp.run .native TodoApp.constructor
      [.mount, .unmount, .response okResponse]).1.continuationCalls = [sampleTodos] ∧
    (TodoApp.run .native TodoApp.constructor
      [.mount, .unmount, .response okResponse]).1.phase = .unmounted := by
  refine ⟨rfl, rfl⟩

/-- C6 as stated fails: the response `okNotJson` is ok, and `fetchJSON` fails on
it with the `SyntaxError` of `res.json()` and returns no parsed body. -/
theorem C6_ok_response_can_fail :
    okNotJson.ok = true ∧
    (fetchJSON okNotJson).outcome = .rejected .syntaxError ∧
    ¬ ∃ parsed, (fetchJSON okNotJson).outcome = .fulfilled parsed := by
  refine ⟨by decide, by decide, ?_⟩
  rintro ⟨parsed, h⟩
  have h2 : (fetchJSON okNotJson).outcome = .rejected .syntaxError := by decide
  rw [h2] at h
  cases h

/-! ## The product of doubles at sample inputs -/

theorem log_two_eq_of_bounds (x : ℚ) (e : Int) (hx : 0 < x) (h1 : (2 : ℚ) ^ e ≤ x)
    (h2 : x < (2 : ℚ) ^ (e + 1)) : Int.log 2 x = e := by
  have hb : 1 < 2 := by norm_num
  have a1 : e ≤ Int.log 2 x := (Int.zpow_le_iff_le_log hb hx).mp (by exact_mod_cast h1)
  have a2 : Int.log 2 x < e + 1 := (Int.lt_zpow_iff_log_lt hb hx).mp (by exact_mod_cast h2)
  omega

theorem roundHalfEven_tie_odd (k : Int) (hk : k % 2 = 1) :
    roundHalfEven ((k : ℚ) + 1 / 2) = k + 1 := by
  have hfl : ⌊(k : ℚ) + 1 / 2⌋ = k := by
    rw [Int.floor_eq_iff]
    constructor <;> norm_num
  have hne : ¬ (k % 2 = 0) := by omega
  have hd : (k : ℚ) + 1 / 2 - (k : ℚ) = 1 / 2 := by ring
  unfold roundHalfEven
  rw [hfl, hd, if_neg (lt_irrefl _), if_neg (lt_irrefl _), if_neg hne]

theorem doubleMul_tieDraw : doubleMul tieDraw 10 = 9 := by
  have hx : tieDraw * ((10 : Nat) : ℚ) = 9 - 1 / 2 ^ 50 := by
    simp only [tieDraw]
    norm_num
  have hlog : Int.log 2 (9 - 1 / 2 ^ 50 : ℚ) = 3 := by
    apply log_two_eq_of_bounds <;> norm_num
  have hq : (9 - 1 / 2 ^ 50 : ℚ) / (2 : ℚ) ^ (-49 : Int) =
      ((5066549580791807 : Int) : ℚ) + 1 / 2 := by
    norm_num
  have hpos : ¬ ((9 - 1 / 2 ^ 50 : ℚ) = 0) := by norm_num
  have hneg : ¬ ((9 - 1 / 2 ^ 50 : ℚ) < 0) := by norm_num
  have hmax : max (3 : Int) (-1022) - 52 = -49 := by decide
  rw [doubleMul, hx, roundDouble, if_neg hpos, if_neg hneg, roundDoublePos, hlog, hmax, hq,
    roundHalfEven_tie_odd _ (by decide)]
  norm_num

theorem exactMul_tieDraw : ⌊exactMul tieDraw 10⌋ = 8 := by
  rw [Int.floor_eq_iff]
  constructor <;> norm_num [exactMul, tieDraw]

theorem doubleMul_thirdDraw : doubleMul thirdDraw 3 = 1 := by
  have hx : thirdDraw * ((3 : Nat) : ℚ) = 1 - 1 / 2 ^ 54 := by
    simp only [thirdDraw]
    norm_num
  have hlog : Int.log 2 (1 - 1 / 2 ^ 54 : ℚ) = -1 := by
    apply log_two_eq_of_bounds <;> norm_num
  have hq : (1 - 1 / 2 ^ 54 : ℚ) / (2 : ℚ) ^ (-53 : Int) =
      ((9007199254740991 : Int) : ℚ) + 1 / 2 := by
    norm_num
  have hpos : ¬ ((1 - 1 / 2 ^ 54 : ℚ) = 0) := by norm_num
  have hneg : ¬ ((1 - 1 / 2 ^ 54 : ℚ) < 0) := by norm_num
  have hmax : max (-1 : Int) (-1022) - 52 = -53 := by decide
  rw [doubleMul, hx, roundDouble, if_neg hpos, if_neg hneg, roundDoublePos, hlog, hmax, hq,
    roundHalfEven_tie_odd _ (by decide)]
  norm_num

theorem exactMul_thirdDraw : ⌊exactMul thirdDraw 3⌋ = 0 := by
  rw [Int.floor_eq_iff]
  constructor <;> norm_num [exactMul, thirdDraw]

/-! ## The theorems at sample inputs -/

theorem C1_handleClick_pointwise_sample :
    (TodoApp.handleClick (.num 2) ⟨sampleTodos⟩).todos.length = 2 ∧
    (TodoApp.handleClick (.num 3) ⟨sampleTodos⟩).todos = sampleTodos :=
  ⟨(C1_handleClick_pointwise sampleTodos (.num 2)).1,
    (C1_handleClick_pointwise sampleTodos (.num 3)).2.2 (by decide)⟩

theorem C2_componentDidUpdate_recompute_law_sample :
    TodoList.setState ⟨7⟩ (TodoList.componentDidUpdate doubleMul ⟨[]⟩ ⟨tenTodos⟩ tieDraw) =
      ⟨9⟩ ∧
    TodoList.setState ⟨7⟩
      (TodoList.componentDidUpdate doubleMul ⟨sampleTodos⟩ ⟨sampleTodos⟩ tieDraw) = ⟨7⟩ := by
  have h := ((C2_componentDidUpdate_recompute_law doubleMul [] tenTodos tieDraw 7).2.1
    (by decide)).2
  have hl : tenTodos.length = 10 := rfl
  rw [hl, doubleMul_tieDraw] at h
  have h9 : ⌊(9 : ℚ)⌋ = 9 := by
    rw [Int.floor_eq_iff]
    constructor <;> norm_num
  rw [h9] at h
  exact ⟨h, ((C2_componentDidUpdate_recompute_law doubleMul sampleTodos sampleTodos
    tieDraw 7).2.2 rfl).2⟩

theorem C6_fetchJSON_fails_iff_not_ok_sample :
    notFound.ok = false ∧
    (∀ r, TodoApp.Event.response r ∈
      [TodoApp.Event.mount, .click (.num 1), .response notFound] → r.ok = false) ∧
    fetchJSON notFound = { outcome := .rejected (.fetchError notFound), jsonCalled := false } ∧
    (TodoApp.run .native TodoApp.constructor
      [.mount, .click (.num 1), .response notFound]).1.state.todos = [] :=
  have h : ∀ r, TodoApp.Event.response r ∈
      [TodoApp.Event.mount, .click (.num 1), .response notFound] → r.ok = false := by
    intro r hr
    simp at hr
    subst hr
    decide
  ⟨by decide, h,
    (C6_fetchJSON_fails_iff_not_ok .native notFound
      [.mount, .click (.num 1), .response notFound]).1 (by decide),
    ((C6_fetchJSON_fails_iff_not_ok .native notFound
      [.mount, .click (.num 1), .response notFound]).2.2.2.2.2.2 h).2⟩

theorem C8_featured_in_range_sample :
    (∀ n, 0 ≤ halfDraws n ∧ halfDraws n < 1) ∧
    ((TodoList.run exactMul halfDraws ⟨[]⟩ [⟨sampleTodos⟩]).state.featured = 0 ∨
      (TodoList.run exactMul halfDraws ⟨[]⟩ [⟨sampleTodos⟩]).state.featured = 1) :=
  have h : ∀ n, 0 ≤ halfDraws n ∧ halfDraws n < 1 := by
    intro n
    simp only [halfDraws]
    norm_num
  ⟨h, (C8_featured_in_range halfDraws h ⟨[]⟩ [⟨sampleTodos⟩]).2.2.2 rfl⟩

theorem C9_toggle_flips_exactly_one_sample :
    (sampleTodos.map (fun todo => todo.id)).Nodup ∧
    Ident.num 2 ∈ sampleTodos.map (fun todo => todo.id) ∧
    ∃ (i : Nat) (t : TodoItem), sampleTodos[i]? = some t ∧ t.id = .num 2 ∧
      (TodoApp.handleClick (.num 2) ⟨sampleTodos⟩).todos[i]? =
        some { t with checked := !t.checked } ∧
      (∀ j, (TodoApp.handleClick (.num 2) ⟨sampleTodos⟩).todos[j]? ≠ sampleTodos[j]? ↔ j = i) :=
  ⟨by decide, by decide,
    C9_toggle_flips_exactly_one sampleTodos (.num 2) (by decide) (by decide)⟩
